import Mathlib

/-!
Verification of `src/image_processor.py` (class `ImageProcessor`) against its
natural-language specification.

Shallow embedding conventions:
* Python strings (paths, error messages) are `List Char` (`PyStr`).
* A decoded raster (`PIL.Image.Image`) is a `PILImage`: a color mode,
  dimensions, and a total pixel function `px : Nat → Nat → List Nat`
  (a pixel is the list of its channel values).
* Python nonnegative ints (sizes, dimensions, channel values) are `Nat`.
  In `resize_to_square`, Python computes `int(h * (size / w))` with float
  arithmetic; for positive operands this is the floor of the exact quotient,
  embedded as natural division `h * size / w`.
* The PIL codec primitives (`resize`, `Image.new`, `paste`, `save`) and the
  OS primitives (`os.path.*`, `os.listdir`, `os.makedirs`, `datetime.now`)
  are external collaborators of the program; they are embedded by their
  documented observable behavior (nearest-neighbour resampling stands in for
  the codec's resampling, which no claim inspects).
* Filesystem effects are explicit state passing on an `FS` record; a raised
  Python exception is an `Option PyStr` error component beside the state at
  the raise point (mutations made before the raise persist, as in Python).
-/

abbrev PyStr := List Char

/-- `os.path.basename` on POSIX: the part of the path after the last slash. -/
def os_path_basename (p : PyStr) : PyStr :=
  (p.reverse.takeWhile (fun c => c ≠ '/')).reverse

/-- `os.path.join` on POSIX for two components: if `b` is absolute the result
is `b`; otherwise `a` and `b` joined, inserting a slash unless `a` is empty
or already ends with one. -/
def os_path_join (a b : PyStr) : PyStr :=
  if b.head? = some '/' then b
  else if a = [] ∨ a.getLast? = some '/' then a ++ b
  else a ++ '/' :: b

/-- PIL color modes used by the claims, with their band counts. -/
inductive Mode where
  | RGB
  | L
  | RGBA
  | YCbCr
deriving DecidableEq, Repr

/-- Number of channels (bands) of a PIL mode: `RGB` and `YCbCr` have three,
`L` one, `RGBA` four. -/
def Mode.channels : Mode → Nat
  | .RGB => 3
  | .L => 1
  | .RGBA => 4
  | .YCbCr => 3

/-- A decoded in-memory image: mode, dimensions, and pixel data as a total
function from coordinates to the list of channel values. -/
structure PILImage where
  mode : Mode
  width : Nat
  height : Nat
  px : Nat → Nat → List Nat

/-- `img.resize((new_width, new_height))`: a new raster of the requested
dimensions in the same mode; pixel data is resampled from the source
(nearest-neighbour stands in for the codec's resampling). -/
def PILImage.resize (img : PILImage) (newWidth newHeight : Nat) : PILImage :=
  { mode := img.mode
    width := newWidth
    height := newHeight
    px := fun x y => img.px (x * img.width / newWidth) (y * img.height / newHeight) }

/-- `Image.new(mode, (w, h), color)`: a blank canvas of the given mode and
dimensions, every pixel filled with `color`. -/
def imageNew (mode : Mode) (w h : Nat) (color : List Nat) : PILImage :=
  { mode := mode, width := w, height := h, px := fun _ _ => color }

/-- `canvas.paste(img, (0, 0))`: the pasted image's pixels replace the
canvas's on the region covered by `img` anchored at the top-left corner. -/
def PILImage.pasteAtOrigin (canvas img : PILImage) : PILImage :=
  { canvas with
    px := fun x y => if x < img.width ∧ y < img.height then img.px x y else canvas.px x y }

/-- The `ImageProcessor` instance configuration: `source_folder` and
`target_size`. -/
structure ImageProcessor where
  source_folder : PyStr
  target_size : Nat

/-- Class constant `TARGET_SIZE = 640`. -/
def TARGET_SIZE : Nat := 640

/-- Class constant `OUTPUT_FOLDER = "dataset"`. -/
def OUTPUT_FOLDER : PyStr := "dataset".toList

/-- `ImageProcessor.__init__(source_folder="", target_size=TARGET_SIZE)`:
stores both arguments unchanged. -/
def ImageProcessor.init (source_folder : PyStr := []) (target_size : Nat := TARGET_SIZE) :
    ImageProcessor :=
  { source_folder := source_folder, target_size := target_size }

/-- `set_source_folder(path)`: replaces the configured source folder; no
validation, `target_size` untouched. -/
def ImageProcessor.set_source_folder (p : ImageProcessor) (path : PyStr) : ImageProcessor :=
  { p with source_folder := path }

/-- `resize_to_square(img, dimension=0)`:
`size = dimension or self.target_size` (Python falsy `or`: `0` selects
`target_size`), then the three-case aspect-preserving dimension computation
with `int(...)` truncation, and one call to the codec's `resize`. -/
def ImageProcessor.resize_to_square (p : ImageProcessor) (img : PILImage)
    (dimension : Nat := 0) : PILImage :=
  let size := if dimension = 0 then p.target_size else dimension
  let width := img.width
  let height := img.height
  if width > height then
    img.resize size (height * size / width)
  else if height > width then
    img.resize (width * size / height) size
  else
    img.resize size size

/-- `apply_padding(resized_img, pad_color=(114,114,114))`: squares are
returned unchanged; otherwise a `(target_size, target_size)` canvas in the
input's mode is filled with `pad_color` when the mode is exactly `"RGB"` and
with the one-tuple `(114,)` otherwise, and the input is pasted at `(0, 0)`. -/
def ImageProcessor.apply_padding (p : ImageProcessor) (resized_img : PILImage)
    (pad_color : List Nat := [114, 114, 114]) : PILImage :=
  let width := resized_img.width
  let height := resized_img.height
  if width = height then resized_img
  else
    let color := if resized_img.mode = Mode.RGB then pad_color else [114]
    let square_img := imageNew resized_img.mode p.target_size p.target_size color
    square_img.pasteAtOrigin resized_img

/-- Local wall-clock time as `datetime.now()` observes it. -/
structure DateTime where
  year : Nat
  month : Nat
  day : Nat
  hour : Nat
  minute : Nat
  second : Nat

/-- A number rendered as exactly two zero-padded decimal digits, as the
strftime fields `%m`, `%d`, `%H`, `%M`, `%S` do for in-range values. -/
def pad2 (n : Nat) : PyStr :=
  [Nat.digitChar (n / 10 % 10), Nat.digitChar (n % 10)]

/-- A number rendered as exactly four zero-padded decimal digits, as the
strftime field `%Y` does for four-digit years. -/
def pad4 (n : Nat) : PyStr :=
  [Nat.digitChar (n / 1000 % 10), Nat.digitChar (n / 100 % 10),
   Nat.digitChar (n / 10 % 10), Nat.digitChar (n % 10)]

/-- `now.strftime(DATE_FORMAT)` for `DATE_FORMAT = "%Y%m%d%H%M%S"`. -/
def strftimeDateFormat (t : DateTime) : PyStr :=
  pad4 t.year ++ pad2 t.month ++ pad2 t.day ++ pad2 t.hour ++ pad2 t.minute ++ pad2 t.second

/-- `create_output_folder()`: `os.path.join(OUTPUT_FOLDER,
datetime.now().strftime(DATE_FORMAT))`; the current time is passed
explicitly. -/
def ImageProcessor.create_output_folder (_p : ImageProcessor) (now : DateTime) : PyStr :=
  os_path_join OUTPUT_FOLDER (strftimeDateFormat now)

/-- Filesystem state and capabilities: directory test, listing, image
decoding (`none` = decode failure), plus the mutations the program performs
(directories created, files saved). -/
structure FS where
  isDir : PyStr → Bool
  listDir : PyStr → List PyStr
  readImage : PyStr → Option PILImage
  madeDirs : List PyStr
  saved : List (PyStr × PILImage)

/-- `os.makedirs(path, exist_ok=True)`: records the directory as created. -/
def FS.makedirs (fs : FS) (path : PyStr) : FS :=
  { fs with madeDirs := path :: fs.madeDirs }

/-- `img.save(save_path)`: records the file written at `save_path`. -/
def FS.save (fs : FS) (path : PyStr) (img : PILImage) : FS :=
  { fs with saved := (path, img) :: fs.saved }

/-- `store_image(img, original_img_path, output_dir)`: saves `img` at
`os.path.join(output_dir, os.path.basename(original_img_path))`. -/
def ImageProcessor.store_image (img : PILImage) (original_img_path output_dir : PyStr)
    (fs : FS) : FS :=
  let img_name := os_path_basename original_img_path
  let save_path := os_path_join output_dir img_name
  fs.save save_path img

/-- `process_single_image(image_path, output_dir)`: open, resize (default
dimension), pad (default color), store; a decode failure propagates. -/
def ImageProcessor.process_single_image (p : ImageProcessor) (image_path output_dir : PyStr)
    (fs : FS) : FS × Option PyStr :=
  match fs.readImage image_path with
  | none => (fs, some ("cannot identify image file".toList ++ image_path))
  | some img =>
    let resized := p.resize_to_square img
    let padded := p.apply_padding resized
    (ImageProcessor.store_image padded image_path output_dir fs, none)

/-- The `for img_file in os.listdir(...)` loop body of
`process_images_in_folder`: joins each entry with the source folder and
processes it, stopping at the first propagated error. -/
def ImageProcessor.processLoop (p : ImageProcessor) (output_dir : PyStr) :
    List PyStr → FS → FS × Option PyStr
  | [], fs => (fs, none)
  | img_file :: rest, fs =>
    let image_path := os_path_join p.source_folder img_file
    match p.process_single_image image_path output_dir fs with
    | (fs1, some e) => (fs1, some e)
    | (fs1, none) => p.processLoop output_dir rest fs1

/-- The `ValueError` message raised by `process_images_in_folder` on an
invalid source folder. -/
def invalidSourceMsg : PyStr :=
  ("Invalid source folder. Please specify a valid folder" ++
   " with set_source_folder().").toList

/-- `process_images_in_folder()`: raises `ValueError` unless `source_folder`
is an existing directory; otherwise creates the timestamped output directory
and processes every listed entry. -/
def ImageProcessor.process_images_in_folder (p : ImageProcessor) (now : DateTime)
    (fs : FS) : FS × Option PyStr :=
  if ¬ fs.isDir p.source_folder then
    (fs, some invalidSourceMsg)
  else
    let output_dir := p.create_output_folder now
    let fs1 := fs.makedirs output_dir
    p.processLoop output_dir (fs.listDir p.source_folder) fs1

/-- Modelled from the spec: Python's built-in `round` (round half to even)
applied to the exact rational `num / den`, used only to state the spec's
`round(h * size / w)` formula for comparison with the code. -/
def pyRound (num den : Nat) : Nat :=
  let q := num / den
  let r := num % den
  if 2 * r < den then q
  else if den < 2 * r then q + 1
  else if q % 2 = 0 then q else q + 1

/-! Concrete fixtures used by counterexamples and witnesses. -/

/-- A processor with the default configuration (`target_size = 640`). -/
def p640 : ImageProcessor := ImageProcessor.init [] 640

/-- A 3×2 RGB raster (landscape, non-square). -/
def img3x2 : PILImage := ⟨Mode.RGB, 3, 2, fun _ _ => [0, 0, 0]⟩

/-- A 2×1 YCbCr raster: three channels but mode different from `"RGB"`. -/
def imgY : PILImage := ⟨Mode.YCbCr, 2, 1, fun _ _ => [0, 0, 0]⟩

/-- A 5×5 single-channel square raster. -/
def imgSq : PILImage := ⟨Mode.L, 5, 5, fun _ _ => [7]⟩

/-- A filesystem with no directories, no entries and no decodable images. -/
def fs0 : FS := ⟨fun _ => false, fun _ => [], fun _ => none, [], []⟩

/-- A concrete wall-clock instant. -/
def now0 : DateTime := ⟨2026, 10, 12, 3, 4, 5⟩

/-- The three-case dimension formula of `resize_to_square` with the code's
`int(...)` truncation (floor) on the scaled side. -/
def resizeDimsFloor (p : ImageProcessor) (img : PILImage) (size : Nat) : Prop :=
  (img.height < img.width →
     (p.resize_to_square img size).width = size ∧
     (p.resize_to_square img size).height = img.height * size / img.width) ∧
  (img.width < img.height →
     (p.resize_to_square img size).width = img.width * size / img.height ∧
     (p.resize_to_square img size).height = size) ∧
  (img.width = img.height →
     (p.resize_to_square img size).width = size ∧
     (p.resize_to_square img size).height = size)

/-- The observable shape of `apply_padding`'s result with the default pad
color: a `(target_size, target_size)` canvas in the input's mode, the input's
pixels at the top-left, and every other pixel equal to `(114,114,114)` when
the mode is exactly `RGB` and to `(114,)` otherwise. -/
def paddedCanvasSpec (p : ImageProcessor) (img : PILImage) : Prop :=
  (p.apply_padding img).width = p.target_size ∧
  (p.apply_padding img).height = p.target_size ∧
  (p.apply_padding img).mode = img.mode ∧
  (∀ x y, x < img.width → y < img.height → (p.apply_padding img).px x y = img.px x y) ∧
  (∀ x y, img.width ≤ x ∨ img.height ≤ y →
     (p.apply_padding img).px x y = if img.mode = Mode.RGB then [114, 114, 114] else [114])

/-! Helper lemmas about list and path operations. -/

theorem takeWhile_append_all (q : Char → Bool) (l1 l2 : List Char)
    (h : ∀ c ∈ l1, q c = true) :
    List.takeWhile q (l1 ++ l2) = l1 ++ List.takeWhile q l2 := by
  induction l1 with
  | nil => simp
  | cons a t ih =>
    have ha : q a = true := h a (by simp)
    simp only [List.cons_append, List.takeWhile_cons, ha, if_true]
    rw [ih (fun c hc => h c (by simp [hc]))]

theorem takeWhile_all (q : Char → Bool) (l : List Char) (h : ∀ c ∈ l, q c = true) :
    List.takeWhile q l = l := by
  induction l with
  | nil => simp
  | cons a t ih =>
    have ha : q a = true := h a (by simp)
    simp only [List.takeWhile_cons, ha, if_true]
    rw [ih (fun c hc => h c (by simp [hc]))]

theorem mem_basename_ne_slash (p : PyStr) : ∀ c ∈ os_path_basename p, c ≠ '/' := by
  intro c hc
  unfold os_path_basename at hc
  rw [List.mem_reverse] at hc
  have := List.mem_takeWhile_imp hc
  simpa using this

theorem basename_of_no_slash (b : PyStr) (hb : ∀ c ∈ b, c ≠ '/') :
    os_path_basename b = b := by
  unfold os_path_basename
  rw [takeWhile_all _ b.reverse (by intro c hc; simp [hb c (List.mem_reverse.mp hc)])]
  simp

theorem basename_append_slash (a b : PyStr) (hb : ∀ c ∈ b, c ≠ '/') :
    os_path_basename (a ++ '/' :: b) = b := by
  unfold os_path_basename
  have h1 : (a ++ '/' :: b).reverse = b.reverse ++ '/' :: a.reverse := by
    simp
  rw [h1, takeWhile_append_all _ b.reverse _
      (by intro c hc; simp [hb c (List.mem_reverse.mp hc)])]
  have h2 : List.takeWhile (fun c => decide (c ≠ '/')) ('/' :: a.reverse) = [] := by
    simp [List.takeWhile_cons]
  rw [h2]
  simp

theorem basename_append_of_last_slash (a b : PyStr) (ha : a.getLast? = some '/')
    (hb : ∀ c ∈ b, c ≠ '/') :
    os_path_basename (a ++ b) = b := by
  have h0 : a.reverse.head? = some '/' := by rw [List.head?_reverse]; exact ha
  match hrev : a.reverse with
  | [] => simp [hrev] at h0
  | c :: t =>
    have hc : c = '/' := by simp [hrev] at h0; exact h0
    have ha2 : a = t.reverse ++ '/' :: [] := by
      have := congrArg List.reverse hrev
      simpa [hc] using this
    subst hc
    rw [ha2]
    have : t.reverse ++ '/' :: [] ++ b = t.reverse ++ '/' :: b := by simp
    rw [this, basename_append_slash _ _ hb]

theorem basename_join_basename (out orig : PyStr) :
    os_path_basename (os_path_join out (os_path_basename orig)) = os_path_basename orig := by
  have hb : ∀ c ∈ os_path_basename orig, c ≠ '/' := mem_basename_ne_slash orig
  unfold os_path_join
  split_ifs with h1 h2
  · exfalso
    cases hcase : os_path_basename orig with
    | nil => rw [hcase] at h1; simp at h1
    | cons c t =>
      rw [hcase] at h1
      simp at h1
      exact hb c (by rw [hcase]; simp) (by simp [h1])
  · rcases h2 with h2 | h2
    · rw [h2]
      simpa using basename_of_no_slash _ hb
    · exact basename_append_of_last_slash out _ h2 hb
  · exact basename_append_slash out _ hb

theorem digitChar_mod_isDigit (n : Nat) : (Nat.digitChar (n % 10)).isDigit = true := by
  have hall : ∀ m, m < 10 → (Nat.digitChar m).isDigit = true := by decide
  exact hall (n % 10) (Nat.mod_lt n (by norm_num))

theorem digitChar_mod_ne_slash (n : Nat) : Nat.digitChar (n % 10) ≠ '/' := by
  have hall : ∀ m, m < 10 → Nat.digitChar m ≠ '/' := by decide
  exact hall (n % 10) (Nat.mod_lt n (by norm_num))

theorem strftime_length (t : DateTime) : (strftimeDateFormat t).length = 14 := by
  simp [strftimeDateFormat, pad4, pad2]

theorem strftime_digits (t : DateTime) : ∀ c ∈ strftimeDateFormat t, c.isDigit = true := by
  intro c hc
  simp only [strftimeDateFormat, pad4, pad2, List.mem_append, List.mem_cons,
    List.not_mem_nil, or_false, or_assoc] at hc
  rcases hc with h | h | h | h | h | h | h | h | h | h | h | h | h | h <;>
    (subst h; exact digitChar_mod_isDigit _)

theorem create_output_folder_eq (p : ImageProcessor) (now : DateTime) :
    p.create_output_folder now = "dataset/".toList ++ strftimeDateFormat now := by
  unfold ImageProcessor.create_output_folder os_path_join OUTPUT_FOLDER
  have hhead : (strftimeDateFormat now).head? = some (Nat.digitChar (now.year / 1000 % 10)) := by
    simp [strftimeDateFormat, pad4]
  rw [hhead]
  have h1 : ¬ (some (Nat.digitChar (now.year / 1000 % 10)) = some '/') := by
    simp [digitChar_mod_ne_slash]
  rw [if_neg h1]
  have h2 : ¬ ("dataset".toList = ([] : PyStr) ∨ "dataset".toList.getLast? = some '/') := by
    decide
  rw [if_neg h2]
  have h3 : ("dataset/".toList : PyStr) = "dataset".toList ++ ['/'] := by decide
  rw [h3, List.append_assoc]
  rfl

/-! Claim theorems. -/

/-- C1 counterexample: for the 3×2 image at size 640 the code computes
`int(2 * 640 / 3) = 426`, while the spec's `round(2 * 640 / 3)` is 427, so
the claimed rounding formula is false on the code. -/
theorem resize_round_counterexample :
    0 < 640 ∧ img3x2.height < img3x2.width ∧
    (p640.resize_to_square img3x2 640).height ≠
      pyRound (img3x2.height * 640) img3x2.width := by decide

/-- C1 (amended): for every image and positive size, `resize_to_square`
follows the three-case dimension formula with the scaled side truncated
(`int(...)`, i.e. floor), not rounded to nearest. -/
theorem resize_to_square_dims (p : ImageProcessor) (img : PILImage) (size : Nat)
    (hs : 0 < size) : resizeDimsFloor p img size := by
  have h0 : (if size = 0 then p.target_size else size) = size := if_neg (by omega)
  simp only [resizeDimsFloor, ImageProcessor.resize_to_square, PILImage.resize, h0]
  refine ⟨?_, ?_, ?_⟩ <;> intro h
  · rw [if_pos h]; exact ⟨rfl, rfl⟩
  · rw [if_neg (by omega), if_pos h]; exact ⟨rfl, rfl⟩
  · rw [if_neg (by omega), if_neg (by omega)]; exact ⟨rfl, rfl⟩

/-- C1 witness: the amended dimension formula at the 3×2 image and size 640. -/
theorem resize_to_square_dims_witness :
    0 < 640 ∧ resizeDimsFloor p640 img3x2 640 :=
  ⟨by decide, resize_to_square_dims p640 img3x2 640 (by decide)⟩

/-- C2 counterexample: a non-square `YCbCr` image has three channels, yet the
padded pixel outside the pasted region is not `(114,114,114)` (the code fills
with `(114,)` whenever the mode is not exactly `"RGB"`). -/
theorem padding_three_channel_counterexample :
    Mode.channels imgY.mode = 3 ∧ imgY.width ≠ imgY.height ∧
    imgY.height ≤ 1 ∧ (p640.apply_padding imgY).px 0 1 ≠ [114, 114, 114] := by decide

/-- C2 (amended): for every non-square image, `apply_padding` with the
default pad color returns a `(target_size, target_size)` canvas in the same
mode with the input pasted at `(0,0)`, and every pixel outside the pasted
region equals `(114,114,114)` when the color mode is exactly `RGB` and the
single-channel value `114` otherwise. -/
theorem apply_padding_nonsquare_spec (p : ImageProcessor) (img : PILImage)
    (h : img.width ≠ img.height) : paddedCanvasSpec p img := by
  simp only [paddedCanvasSpec, ImageProcessor.apply_padding, imageNew,
    PILImage.pasteAtOrigin, if_neg h]
  refine ⟨trivial, trivial, trivial, ?_, ?_⟩
  · intro x y hx hy
    simp [hx, hy]
  · intro x y hxy
    have hc : ¬ (x < img.width ∧ y < img.height) := by omega
    simp [hc]

/-- C2 witness: the amended padding shape at the non-square 3×2 RGB image. -/
theorem apply_padding_nonsquare_spec_witness :
    img3x2.width ≠ img3x2.height ∧ paddedCanvasSpec p640 img3x2 :=
  ⟨by decide, apply_padding_nonsquare_spec p640 img3x2 (by decide)⟩

/-- C3: when `source_folder` is not an existing directory,
`process_images_in_folder` raises the configuration `ValueError` and returns
the filesystem unchanged: nothing processed, no output directory created. -/
theorem process_images_invalid_source (p : ImageProcessor) (now : DateTime) (fs : FS)
    (h : fs.isDir p.source_folder = false) :
    p.process_images_in_folder now fs = (fs, some invalidSourceMsg) := by
  unfold ImageProcessor.process_images_in_folder
  rw [if_pos (by simp [h])]

/-- C3 witness: the error and unchanged state on a filesystem with no
directories at all. -/
theorem process_images_invalid_source_witness :
    fs0.isDir p640.source_folder = false ∧
    p640.process_images_in_folder now0 fs0 = (fs0, some invalidSourceMsg) :=
  ⟨rfl, process_images_invalid_source p640 now0 fs0 rfl⟩

/-- C4: for a square image, `resize_to_square` (default dimension) yields a
`(target_size, target_size)` raster, and `apply_padding` returns the very
same image, with any pad color. -/
theorem square_resize_padding_noop (p : ImageProcessor) (img : PILImage)
    (pad_color : List Nat) (h : img.width = img.height) :
    (p.resize_to_square img).width = p.target_size ∧
    (p.resize_to_square img).height = p.target_size ∧
    p.apply_padding img pad_color = img := by
  refine ⟨?_, ?_, ?_⟩
  · simp [ImageProcessor.resize_to_square, PILImage.resize, h]
  · simp [ImageProcessor.resize_to_square, PILImage.resize, h]
  · simp [ImageProcessor.apply_padding, h]

/-- C4 witness: the square no-op at the 5×5 single-channel image. -/
theorem square_resize_padding_noop_witness :
    imgSq.width = imgSq.height ∧
    ((p640.resize_to_square imgSq).width = p640.target_size ∧
     (p640.resize_to_square imgSq).height = p640.target_size ∧
     p640.apply_padding imgSq [1, 2, 3] = imgSq) :=
  ⟨by decide, square_resize_padding_noop p640 imgSq [1, 2, 3] (by decide)⟩

/-- C5: for every non-square image the padded canvas has dimensions
`(target_size, target_size)`, in particular also when the image came from
`resize_to_square` called with a dimension argument different from the
configured `target_size`. -/
theorem apply_padding_canvas_target_size (p : ImageProcessor) (img : PILImage)
    (pad_color : List Nat) (d : Nat) (h : img.width ≠ img.height) :
    (p.apply_padding img pad_color).width = p.target_size ∧
    (p.apply_padding img pad_color).height = p.target_size ∧
    ((p.resize_to_square img d).width ≠ (p.resize_to_square img d).height →
      (p.apply_padding (p.resize_to_square img d) pad_color).width = p.target_size ∧
      (p.apply_padding (p.resize_to_square img d) pad_color).height = p.target_size) := by
  have gen : ∀ im : PILImage, im.width ≠ im.height →
      (p.apply_padding im pad_color).width = p.target_size ∧
      (p.apply_padding im pad_color).height = p.target_size := by
    intro im him
    simp [ImageProcessor.apply_padding, him, imageNew, PILImage.pasteAtOrigin]
  exact ⟨(gen img h).1, (gen img h).2, fun h2 => gen _ h2⟩

/-- C5 witness: resizing the 3×2 image to 100 (≠ 640) still pads onto a
640×640 canvas. -/
theorem apply_padding_canvas_target_size_witness :
    img3x2.width ≠ img3x2.height ∧
    ((p640.apply_padding img3x2 [9, 9, 9]).width = p640.target_size ∧
     (p640.apply_padding img3x2 [9, 9, 9]).height = p640.target_size ∧
     ((p640.resize_to_square img3x2 100).width ≠ (p640.resize_to_square img3x2 100).height →
       (p640.apply_padding (p640.resize_to_square img3x2 100) [9, 9, 9]).width = p640.target_size ∧
       (p640.apply_padding (p640.resize_to_square img3x2 100) [9, 9, 9]).height = p640.target_size)) :=
  ⟨by decide, apply_padding_canvas_target_size p640 img3x2 [9, 9, 9] 100 (by decide)⟩

/-- C6: construction with the declared positive `target_size` (and the
default 640) establishes `target_size > 0`, and `set_source_folder`, the only
mutating operation, leaves `target_size` unchanged, preserving the
invariant. -/
theorem target_size_invariant (src path : PyStr) (t : Nat) (p : ImageProcessor)
    (ht : 0 < t) (hp : 0 < p.target_size) :
    0 < (ImageProcessor.init src t).target_size ∧
    0 < (ImageProcessor.init []).target_size ∧
    (p.set_source_folder path).target_size = p.target_size ∧
    0 < (p.set_source_folder path).target_size :=
  ⟨ht, by decide, rfl, hp⟩

/-- C6 witness: the invariant at a processor built with `target_size = 5`. -/
theorem target_size_invariant_witness :
    (0 < 5 ∧ 0 < p640.target_size) ∧
    (0 < (ImageProcessor.init "a".toList 5).target_size ∧
     0 < (ImageProcessor.init []).target_size ∧
     (p640.set_source_folder "b".toList).target_size = p640.target_size ∧
     0 < (p640.set_source_folder "b".toList).target_size) :=
  ⟨by decide, target_size_invariant "a".toList "b".toList 5 p640 (by decide) (by decide)⟩

/-- C7: for every in-range local time, `create_output_folder` returns
`"dataset/"` followed by the `%Y%m%d%H%M%S` timestamp: 14 characters, all
decimal digits. -/
theorem create_output_folder_pattern (p : ImageProcessor) (now : DateTime)
    ( _hy1 : 1000 ≤ now.year) ( _hy2 : now.year ≤ 9999)
    ( _hm1 : 1 ≤ now.month) ( _hm2 : now.month ≤ 12)
    ( _hd1 : 1 ≤ now.day) ( _hd2 : now.day ≤ 31)
    ( _hh : now.hour ≤ 23) ( _hmi : now.minute ≤ 59) ( _hs : now.second ≤ 59) :
    p.create_output_folder now = "dataset/".toList ++ strftimeDateFormat now ∧
    (strftimeDateFormat now).length = 14 ∧
    (∀ c ∈ strftimeDateFormat now, c.isDigit = true) :=
  ⟨create_output_folder_eq p now, strftime_length now, strftime_digits now⟩

/-- C7 witness: the pattern at 2026-10-12 03:04:05. -/
theorem create_output_folder_pattern_witness :
    (1000 ≤ now0.year ∧ now0.year ≤ 9999 ∧ 1 ≤ now0.month ∧ now0.month ≤ 12 ∧
     1 ≤ now0.day ∧ now0.day ≤ 31 ∧ now0.hour ≤ 23 ∧ now0.minute ≤ 59 ∧ now0.second ≤ 59) ∧
    (p640.create_output_folder now0 = "dataset/".toList ++ strftimeDateFormat now0 ∧
     (strftimeDateFormat now0).length = 14 ∧
     (∀ c ∈ strftimeDateFormat now0, c.isDigit = true)) :=
  ⟨by decide, create_output_folder_pattern p640 now0 (by decide) (by decide) (by decide)
    (by decide) (by decide) (by decide) (by decide) (by decide) (by decide)⟩

/-- C8: `store_image` saves the image at the join of the output directory
with the base name of the original path, and the base name of the saved
path equals the base name of the input path exactly. -/
theorem store_image_preserves_filename (img : PILImage) (orig out : PyStr) (fs : FS) :
    (ImageProcessor.store_image img orig out fs).saved =
      (os_path_join out (os_path_basename orig), img) :: fs.saved ∧
    os_path_basename (os_path_join out (os_path_basename orig)) = os_path_basename orig :=
  ⟨rfl, basename_join_basename out orig⟩

/-- C9: the falsy `or` makes `resize_to_square` with `dimension = 0` (the
default) identical to calling it with `dimension = target_size`. -/
theorem resize_to_square_zero_default (p : ImageProcessor) (img : PILImage) :
    p.resize_to_square img 0 = p.resize_to_square img p.target_size := by
  simp [ImageProcessor.resize_to_square]

/-- C10: when the mode is not exactly `RGB`, `apply_padding` is independent
of its `pad_color` argument, and on a non-square input every pixel outside
the pasted region is the hardcoded single-channel value `114`. -/
theorem apply_padding_ignores_color_non_rgb (p : ImageProcessor) (img : PILImage)
    (c1 c2 : List Nat) (h : img.mode ≠ Mode.RGB) :
    p.apply_padding img c1 = p.apply_padding img c2 ∧
    (img.width ≠ img.height → ∀ x y, img.width ≤ x ∨ img.height ≤ y →
      (p.apply_padding img c1).px x y = [114]) := by
  constructor
  · by_cases hsq : img.width = img.height
    · simp [ImageProcessor.apply_padding, hsq]
    · simp [ImageProcessor.apply_padding, hsq, h]
  · intro hsq x y hxy
    have hc : ¬ (x < img.width ∧ y < img.height) := by omega
    simp [ImageProcessor.apply_padding, hsq, h, imageNew, PILImage.pasteAtOrigin, hc]

/-- C10 witness: the `YCbCr` image padded with two different colors gives the
same result, filled with `114` outside the pasted region. -/
theorem apply_padding_ignores_color_non_rgb_witness :
    imgY.mode ≠ Mode.RGB ∧
    (p640.apply_padding imgY [9, 9, 9] = p640.apply_padding imgY [1] ∧
     (imgY.width ≠ imgY.height → ∀ x y, imgY.width ≤ x ∨ imgY.height ≤ y →
       (p640.apply_padding imgY [9, 9, 9]).px x y = [114])) :=
  ⟨by decide, apply_padding_ignores_color_non_rgb p640 imgY [9, 9, 9] [1] (by decide)⟩
